import Mathlib

/-!
Shallow embedding of the `terraform-provider-deploymeta` provider package.

Each Terraform resource operation (Create / Read / Update / Delete) is embedded
as a pure function of its decoded input (the plan or prior state, which may be
a decode failure carrying a diagnostic) and of the remote adapter response for
the single RPC the operation may perform.  The function returns the
diagnostics appended to the response, the action taken on persisted state
(keep / set / remove), and the list of remote calls issued, so that frame
properties (zero remote calls) are directly observable.
-/

namespace Deploymeta

/-- Structured connect-RPC error codes used by the provider: the provider only
ever compares against `CodeNotFound`; every other code is handled uniformly. -/
inductive Code where
  | unknown
  | notFound
  | internal
  | unavailable
  | invalidArgument
  | permissionDenied
  deriving DecidableEq, Repr

/-- A connect-RPC error: a structured code plus a human-readable message. -/
structure ConnectError where
  code : Code
  message : String
  deriving DecidableEq, Repr

/-- `connect.CodeOf(err)` applied to the outcome of an RPC call: the structured
code of the error, or `CodeUnknown` when the call succeeded (no error). -/
def codeOfE {α : Type} : Except ConnectError α → Code
  | .error e => e.code
  | .ok _ => .unknown

/-- One diagnostic appended via `resp.Diagnostics.AddError(summary, detail)`. -/
structure Diagnostic where
  summary : String
  detail : String
  deriving DecidableEq, Repr

/-- Action taken on the persisted Terraform state by an operation:
leave it untouched, set it to a new model, or remove it (`RemoveResource`). -/
inductive StateAction (σ : Type) where
  | keep
  | set (s : σ)
  | remove
  deriving DecidableEq, Repr

/-- The DNS record type enumeration of the deployment API. -/
inductive DNSRecordType where
  | txt
  | cname
  deriving DecidableEq, Repr

/-- Every remote adapter call the provider can issue, with its payload. -/
inductive RemoteCall where
  | createDNSRecord (name zoneName : String) (rrType : DNSRecordType)
      (values : List String)
  | getDNSRecord (id : String)
  | updateDNSRecord (id : String) (values : List String)
  | deleteDNSRecord (id : String)
  | registerAWSACMCertificate (arn domainName validationCnameName
      validationCnameValue status : String)
  | getAWSACMCertificate (id : String)
  | updateAWSACMCertificate (id arn domainName validationCnameName
      validationCnameValue status : String)
  | deregisterAWSACMCertificate (id : String)
  | registerNameservers (nameservers : List String)
  | getDeployment
  | createWriteToken
  | setTerraformOutput (samlSsoAcsUrl samlSsoEntityId cognitoUserPoolId
      dnsCnameRecordForAppDomain dnsCnameRecordForAuthDomain webClientId
      cliClientId terraformClientId readOnlyClientId provisionerClientId
      vpcId : String)
  | getTerraformOutput
  deriving DecidableEq, Repr

/-- The full outcome of one resource operation: diagnostics appended, the
state action performed, and the remote calls issued (in order). -/
structure OpResponse (σ : Type) where
  diags : List Diagnostic
  state : StateAction σ
  calls : List RemoteCall
  deriving DecidableEq, Repr

/-! ## DNS record resource (`DNSRecordResource`) -/

/-- `DNSRecordResourceModel`: the Terraform data model of a DNS record.
The set-typed `values` attribute is decoded to a list of strings. -/
structure DNSRecordResourceModel where
  id : String
  name : String
  type : String
  zoneName : String
  values : List String
  deriving DecidableEq, Repr

/-- The record returned by `GetDNSRecord`; the code reads only `Id` and
`Values` from it. -/
structure DNSRecord where
  id : String
  values : List String
  deriving DecidableEq, Repr

/-- The `switch data.Type.ValueString()` validation in `DNSRecordResource.Create`:
only TXT and CNAME map to an API record type. -/
def parseDNSRecordType : String → Option DNSRecordType
  | "TXT" => some .txt
  | "CNAME" => some .cname
  | _ => none

/-- `DNSRecordResource.Create`: decode the plan, validate the record type,
call `CreateDNSRecord`, and on success store the plan with the returned id. -/
def DNSRecordResource.create (plan : Except Diagnostic DNSRecordResourceModel)
    (api : Except ConnectError String) : OpResponse DNSRecordResourceModel :=
  match plan with
  | .error d => ⟨[d], .keep, []⟩
  | .ok data =>
    match parseDNSRecordType data.type with
    | none =>
      ⟨[⟨"Invalid DNS record type",
         "the DNS record type is invalid. Valid values are TXT, CNAME"⟩],
       .keep, []⟩
    | some rrType =>
      let call := RemoteCall.createDNSRecord data.name data.zoneName rrType
        data.values
      match api with
      | .error e =>
        ⟨[⟨"Common Fate Deployment API error",
           "Unable to create a DNS record for the deployment, got error: "
             ++ e.message⟩], .keep, [call]⟩
      | .ok createdId => ⟨[], .set { data with id := createdId }, [call]⟩

/-- `DNSRecordResource.Read`: decode prior state, call `GetDNSRecord`;
`CodeNotFound` removes the resource from state, any other error is a
diagnostic, and success overwrites `id` and `values` from the API record. -/
def DNSRecordResource.read (st : Except Diagnostic DNSRecordResourceModel)
    (api : Except ConnectError DNSRecord) : OpResponse DNSRecordResourceModel :=
  match st with
  | .error d => ⟨[d], .keep, []⟩
  | .ok data =>
    let call := RemoteCall.getDNSRecord data.id
    if codeOfE api == Code.notFound then ⟨[], .remove, [call]⟩
    else
      match api with
      | .error e =>
        ⟨[⟨"Client Error",
           "Unable to read Common Fate DNS record, got error: " ++ e.message⟩],
         .keep, [call]⟩
      | .ok rec =>
        ⟨[], .set { data with id := rec.id, values := rec.values }, [call]⟩

/-- `DNSRecordResource.Update`: decode the plan, call `UpdateDNSRecord` with
the id and values, and on success store the plan with the returned id. -/
def DNSRecordResource.update (plan : Except Diagnostic DNSRecordResourceModel)
    (api : Except ConnectError String) : OpResponse DNSRecordResourceModel :=
  match plan with
  | .error d => ⟨[d], .keep, []⟩
  | .ok data =>
    let call := RemoteCall.updateDNSRecord data.id data.values
    match api with
    | .error e =>
      ⟨[⟨"Common Fate Deployment API error",
         "Unable to update a DNS record for the deployment, got error: "
           ++ e.message⟩], .keep, [call]⟩
    | .ok updatedId => ⟨[], .set { data with id := updatedId }, [call]⟩

/-- `DNSRecordResource.Delete`: decode prior state and call `DeleteDNSRecord`;
any error at all becomes a diagnostic (there is no `CodeNotFound` branch). -/
def DNSRecordResource.delete (st : Except Diagnostic DNSRecordResourceModel)
    (api : Except ConnectError Unit) : OpResponse DNSRecordResourceModel :=
  match st with
  | .error d => ⟨[d], .keep, []⟩
  | .ok data =>
    let call := RemoteCall.deleteDNSRecord data.id
    match api with
    | .error e =>
      ⟨[⟨"Common Fate Deployment API error",
         "Unable to delete DNS record for the deployment, got error: "
           ++ e.message⟩], .keep, [call]⟩
    | .ok _ => ⟨[], .keep, [call]⟩

/-! ## AWS ACM certificate resource (`AWSACMCertificateResource`) -/

/-- `AWSACMCertificateResourceModel`: the Terraform data model of a
registered AWS ACM certificate. -/
structure AWSACMCertificateResourceModel where
  id : String
  arn : String
  domainName : String
  validationCNameName : String
  validationCNameValue : String
  status : String
  deriving DecidableEq, Repr

/-- The `AWSACMCertificate` API message returned by the deployment service. -/
structure AWSACMCertificate where
  id : String
  arn : String
  domainName : String
  validationCnameName : String
  validationCnameValue : String
  status : String
  deriving DecidableEq, Repr

/-- `AWSACMCertificateResource.Create`: decode the plan, call
`RegisterAWSACMCertificate`, and on success store the plan together with the
id of the returned certificate. -/
def AWSACMCertificateResource.create
    (plan : Except Diagnostic AWSACMCertificateResourceModel)
    (api : Except ConnectError AWSACMCertificate) :
    OpResponse AWSACMCertificateResourceModel :=
  match plan with
  | .error d => ⟨[d], .keep, []⟩
  | .ok data =>
    let call := RemoteCall.registerAWSACMCertificate data.arn data.domainName
      data.validationCNameName data.validationCNameValue data.status
    match api with
    | .error e =>
      ⟨[⟨"Common Fate Deployment API error",
         "Unable to register AWS ACM certificate for the deployment, got error: "
           ++ e.message⟩], .keep, [call]⟩
    | .ok cert => ⟨[], .set { data with id := cert.id }, [call]⟩

/-- `AWSACMCertificateResource.Read`: decode prior state, call
`GetAWSACMCertificate`; `CodeNotFound` removes the resource, any other error
is a diagnostic, and success overwrites every field from the API message. -/
def AWSACMCertificateResource.read
    (st : Except Diagnostic AWSACMCertificateResourceModel)
    (api : Except ConnectError AWSACMCertificate) :
    OpResponse AWSACMCertificateResourceModel :=
  match st with
  | .error d => ⟨[d], .keep, []⟩
  | .ok data =>
    let call := RemoteCall.getAWSACMCertificate data.id
    if codeOfE api == Code.notFound then ⟨[], .remove, [call]⟩
    else
      match api with
      | .error e =>
        ⟨[⟨"Client Error",
           "Unable to read Common Fate DNS record, got error: " ++ e.message⟩],
         .keep, [call]⟩
      | .ok cert =>
        ⟨[], .set ⟨cert.id, cert.arn, cert.domainName,
            cert.validationCnameName, cert.validationCnameValue, cert.status⟩,
         [call]⟩

/-- `AWSACMCertificateResource.Update`: decode the plan, call
`UpdateAWSACMCertificate` with the full certificate, and on success store the
plan with the id of the returned certificate. -/
def AWSACMCertificateResource.update
    (plan : Except Diagnostic AWSACMCertificateResourceModel)
    (api : Except ConnectError AWSACMCertificate) :
    OpResponse AWSACMCertificateResourceModel :=
  match plan with
  | .error d => ⟨[d], .keep, []⟩
  | .ok data =>
    let call := RemoteCall.updateAWSACMCertificate data.id data.arn
      data.domainName data.validationCNameName data.validationCNameValue
      data.status
    match api with
    | .error e =>
      ⟨[⟨"Common Fate Deployment API error",
         "Unable to update AWS ACM certificate for the deployment, got error: "
           ++ e.message⟩], .keep, [call]⟩
    | .ok cert => ⟨[], .set { data with id := cert.id }, [call]⟩

/-- The zero value the Go model variable holds when decoding the prior state
fails (all string attributes empty). -/
def AWSACMCertificateResourceModel.zero : AWSACMCertificateResourceModel :=
  ⟨"", "", "", "", "", ""⟩

/-- `AWSACMCertificateResource.Delete`: appends any decode diagnostic from
`req.State.Get` but, unlike every other operation, does not return on it: it
calls `DeregisterAWSACMCertificate` unconditionally (with the zero-value id
when decoding failed).  `CodeNotFound` on delete is treated as success. -/
def AWSACMCertificateResource.delete
    (st : Except Diagnostic AWSACMCertificateResourceModel)
    (api : Except ConnectError Unit) :
    OpResponse AWSACMCertificateResourceModel :=
  let initDiags : List Diagnostic :=
    match st with
    | .error d => [d]
    | .ok _ => []
  let data : AWSACMCertificateResourceModel :=
    match st with
    | .error _ => AWSACMCertificateResourceModel.zero
    | .ok d => d
  let call := RemoteCall.deregisterAWSACMCertificate data.id
  if codeOfE api == Code.notFound then ⟨initDiags, .keep, [call]⟩
  else
    match api with
    | .error e =>
      ⟨initDiags ++
        [⟨"Common Fate Deployment API error",
          "Unable to delete ACM certificate for the deployment, got error: "
            ++ e.message⟩], .keep, [call]⟩
    | .ok _ => ⟨initDiags, .keep, [call]⟩

/-! ## Nameservers resource (`NameserversResource`) -/

/-- `NameserversResourceModel`: a single set-typed `ns_records` attribute,
decoded to a list of strings. -/
structure NameserversResourceModel where
  records : List String
  deriving DecidableEq, Repr

/-- The `Deployment` API message returned by `GetDeployment`. -/
structure Deployment where
  id : String
  dnsZoneName : String
  defaultSubdomain : String
  nameservers : List String
  deriving DecidableEq, Repr

/-- `NameserversResource.Create`: decode the plan, call `RegisterNameservers`
with the records, and on success store the plan data unchanged. -/
def NameserversResource.create
    (plan : Except Diagnostic NameserversResourceModel)
    (api : Except ConnectError Unit) : OpResponse NameserversResourceModel :=
  match plan with
  | .error d => ⟨[d], .keep, []⟩
  | .ok data =>
    let call := RemoteCall.registerNameservers data.records
    match api with
    | .error e =>
      ⟨[⟨"Common Fate Deployment API error",
         "Unable to create register a DNS namespace for the deployment, got error: "
           ++ e.message⟩], .keep, [call]⟩
    | .ok _ => ⟨[], .set data, [call]⟩

/-- `NameserversResource.Read`: decode prior state, call `GetDeployment`;
`CodeNotFound` removes the resource, any other error is a diagnostic, and
success overwrites the records from the deployment's nameservers. -/
def NameserversResource.read
    (st : Except Diagnostic NameserversResourceModel)
    (api : Except ConnectError Deployment) : OpResponse NameserversResourceModel :=
  match st with
  | .error d => ⟨[d], .keep, []⟩
  | .ok _data =>
    let call := RemoteCall.getDeployment
    if codeOfE api == Code.notFound then ⟨[], .remove, [call]⟩
    else
      match api with
      | .error e =>
        ⟨[⟨"Client Error",
           "Unable to read Common Fate deployment metadata, got error: "
             ++ e.message⟩], .keep, [call]⟩
      | .ok dep => ⟨[], .set ⟨dep.nameservers⟩, [call]⟩

/-- `NameserversResource.Update`: the body is identical to Create — decode
the plan, call `RegisterNameservers`, and on success store the plan data. -/
def NameserversResource.update
    (plan : Except Diagnostic NameserversResourceModel)
    (api : Except ConnectError Unit) : OpResponse NameserversResourceModel :=
  match plan with
  | .error d => ⟨[d], .keep, []⟩
  | .ok data =>
    let call := RemoteCall.registerNameservers data.records
    match api with
    | .error e =>
      ⟨[⟨"Common Fate Deployment API error",
         "Unable to create register a DNS namespace for the deployment, got error: "
           ++ e.message⟩], .keep, [call]⟩
    | .ok _ => ⟨[], .set data, [call]⟩

/-- `NameserversResource.Delete`: an empty body — deregistration is handled
out-of-band, so deletion succeeds without touching state or the adapter. -/
def NameserversResource.delete
    (_st : Except Diagnostic NameserversResourceModel) :
    OpResponse NameserversResourceModel :=
  ⟨[], .keep, []⟩

/-! ## Monitoring write token resource (`MonitoringWriteTokenResource`) -/

/-- `MonitoringWriteTokenResourceModel`: the token id and the secret token
value, both computed attributes. -/
structure MonitoringWriteTokenResourceModel where
  id : String
  token : String
  deriving DecidableEq, Repr

/-- The `CreateWriteToken` response: the secret write token and its id. -/
structure CreateWriteTokenResponse where
  writeToken : String
  id : String
  deriving DecidableEq, Repr

/-- `MonitoringWriteTokenResource.Create`: decode the plan, call
`CreateWriteToken`, and on success store the returned token and id. -/
def MonitoringWriteTokenResource.create
    (plan : Except Diagnostic MonitoringWriteTokenResourceModel)
    (api : Except ConnectError CreateWriteTokenResponse) :
    OpResponse MonitoringWriteTokenResourceModel :=
  match plan with
  | .error d => ⟨[d], .keep, []⟩
  | .ok data =>
    let call := RemoteCall.createWriteToken
    match api with
    | .error e =>
      ⟨[⟨"Common Fate Deployment API error",
         "Unable to create a monitoring write token for the deployment, got error: "
           ++ e.message⟩], .keep, [call]⟩
    | .ok res => ⟨[], .set { data with token := res.writeToken, id := res.id },
        [call]⟩

/-- `MonitoringWriteTokenResource.Read`: decodes the prior state and then
returns — the token-validity check is commented out in the source, so no
remote call is made and the persisted state is left untouched. -/
def MonitoringWriteTokenResource.read
    (st : Except Diagnostic MonitoringWriteTokenResourceModel) :
    OpResponse MonitoringWriteTokenResourceModel :=
  match st with
  | .error d => ⟨[d], .keep, []⟩
  | .ok _ => ⟨[], .keep, []⟩

/-- `MonitoringWriteTokenResource.Update`: an empty body — the resource is
immutable once created, so Update is a no-op that ignores both the prior
state and the plan. -/
def MonitoringWriteTokenResource.update
    (_st _plan : Except Diagnostic MonitoringWriteTokenResourceModel) :
    OpResponse MonitoringWriteTokenResourceModel :=
  ⟨[], .keep, []⟩

/-- `MonitoringWriteTokenResource.Delete`: the whole body is commented out in
the source, so deletion succeeds without touching state or the adapter. -/
def MonitoringWriteTokenResource.delete
    (_st : Except Diagnostic MonitoringWriteTokenResourceModel) :
    OpResponse MonitoringWriteTokenResourceModel :=
  ⟨[], .keep, []⟩

/-! ## Terraform output resource (`TerraformOutputResource`) -/

/-- `TerraformOutputResourceModel`: eleven scalar string attributes. -/
structure TerraformOutputResourceModel where
  samlSsoAcsUrl : String
  samlSsoEntityId : String
  cognitoUserPoolId : String
  dnsCnameRecordForAppDomain : String
  dnsCnameRecordForAuthDomain : String
  webClientId : String
  cliClientId : String
  terraformClientId : String
  readOnlyClientId : String
  provisionerClientId : String
  vpcId : String
  deriving DecidableEq, Repr

/-- The payload `SetTerraformOutput` is invoked with, built from the plan. -/
def TerraformOutputResourceModel.toCall (d : TerraformOutputResourceModel) :
    RemoteCall :=
  RemoteCall.setTerraformOutput d.samlSsoAcsUrl d.samlSsoEntityId
    d.cognitoUserPoolId d.dnsCnameRecordForAppDomain
    d.dnsCnameRecordForAuthDomain d.webClientId d.cliClientId
    d.terraformClientId d.readOnlyClientId d.provisionerClientId d.vpcId

/-- `TerraformOutputResource.Create`: decode the plan, call
`SetTerraformOutput` with all eleven fields, and on success store the plan. -/
def TerraformOutputResource.create
    (plan : Except Diagnostic TerraformOutputResourceModel)
    (api : Except ConnectError Unit) : OpResponse TerraformOutputResourceModel :=
  match plan with
  | .error d => ⟨[d], .keep, []⟩
  | .ok data =>
    let call := data.toCall
    match api with
    | .error e =>
      ⟨[⟨"Common Fate Deployment API error",
         "Unable to set Terraform outputs for the deployment, got error: "
           ++ e.message⟩], .keep, [call]⟩
    | .ok _ => ⟨[], .set data, [call]⟩

/-- `TerraformOutputResource.Read`: decode prior state, call
`GetTerraformOutput`; `CodeNotFound` removes the resource, any other error is
a diagnostic, and success overwrites every field from the API output. -/
def TerraformOutputResource.read
    (st : Except Diagnostic TerraformOutputResourceModel)
    (api : Except ConnectError TerraformOutputResourceModel) :
    OpResponse TerraformOutputResourceModel :=
  match st with
  | .error d => ⟨[d], .keep, []⟩
  | .ok _data =>
    let call := RemoteCall.getTerraformOutput
    if codeOfE api == Code.notFound then ⟨[], .remove, [call]⟩
    else
      match api with
      | .error e =>
        ⟨[⟨"Client Error",
           "Unable to read Common Fate DNS record, got error: " ++ e.message⟩],
         .keep, [call]⟩
      | .ok out => ⟨[], .set out, [call]⟩

/-- `TerraformOutputResource.Update`: the body is identical to Create —
decode the plan, call `SetTerraformOutput`, and on success store the plan. -/
def TerraformOutputResource.update
    (plan : Except Diagnostic TerraformOutputResourceModel)
    (api : Except ConnectError Unit) : OpResponse TerraformOutputResourceModel :=
  match plan with
  | .error d => ⟨[d], .keep, []⟩
  | .ok data =>
    let call := data.toCall
    match api with
    | .error e =>
      ⟨[⟨"Common Fate Deployment API error",
         "Unable to set Terraform outputs for the deployment, got error: "
           ++ e.message⟩], .keep, [call]⟩
    | .ok _ => ⟨[], .set data, [call]⟩

/-- `TerraformOutputResource.Delete`: an empty body (a no-op at the moment),
so deletion succeeds without touching state or the adapter. -/
def TerraformOutputResource.delete
    (_st : Except Diagnostic TerraformOutputResourceModel) :
    OpResponse TerraformOutputResourceModel :=
  ⟨[], .keep, []⟩

/-! ## Deployment metadata data source (`DeploymentDataSource`) -/

/-- `DeploymentDataSourceModel`: the read-only deployment metadata. -/
structure DeploymentDataSourceModel where
  dnsZoneName : String
  defaultSubdomain : String
  id : String
  deriving DecidableEq, Repr

/-- `DeploymentDataSource.Read`: decode the configuration, call
`GetDeployment`; every error, `CodeNotFound` included, becomes a diagnostic
(there is no drift branch), and success stores the deployment metadata. -/
def DeploymentDataSource.read
    (cfg : Except Diagnostic DeploymentDataSourceModel)
    (api : Except ConnectError Deployment) : OpResponse DeploymentDataSourceModel :=
  match cfg with
  | .error d => ⟨[d], .keep, []⟩
  | .ok _data =>
    let call := RemoteCall.getDeployment
    match api with
    | .error e =>
      ⟨[⟨"Client Error",
         "Unable to read Common Fate deployment metadata, got error: "
           ++ e.message⟩], .keep, [call]⟩
    | .ok dep =>
      ⟨[], .set ⟨dep.dnsZoneName, dep.defaultSubdomain, dep.id⟩, [call]⟩

/-! ## Provider registration (`DeploymentProvider`) -/

/-- The resource kinds implemented in the provider package. -/
inductive ResourceKind where
  | dnsRecord
  | nameservers
  | awsAcmCertificate
  | monitoringWriteToken
  | terraformOutput
  deriving DecidableEq, Repr

/-- The data source kinds implemented in the provider package. -/
inductive DataSourceKind where
  | deployment
  deriving DecidableEq, Repr

/-- `NewDNSRecordResource`: constructor for the DNS record resource. -/
def NewDNSRecordResource : ResourceKind := .dnsRecord

/-- `NewNameserversResource`: constructor for the nameservers resource. -/
def NewNameserversResource : ResourceKind := .nameservers

/-- `NewAWSACMCertificateResource`: constructor for the certificate resource. -/
def NewAWSACMCertificateResource : ResourceKind := .awsAcmCertificate

/-- `NewMonitoringWriteTokenResource`: constructor for the token resource. -/
def NewMonitoringWriteTokenResource : ResourceKind := .monitoringWriteToken

/-- `NewTerraformOutputResource`: constructor for the output resource. -/
def NewTerraformOutputResource : ResourceKind := .terraformOutput

/-- `NewDeploymentDataSource`: constructor for the deployment data source. -/
def NewDeploymentDataSource : DataSourceKind := .deployment

/-- `DeploymentProvider.Resources`: the list of resource constructors the
provider registers — only the nameservers resource. -/
def DeploymentProvider.Resources : List ResourceKind :=
  [NewNameserversResource]

/-- `DeploymentProvider.DataSources`: the list of data source constructors
the provider registers — only the deployment metadata data source. -/
def DeploymentProvider.DataSources : List DataSourceKind :=
  [NewDeploymentDataSource]

/-- The branch an operation took as far as error classification is concerned:
the state action, whether the diagnostics are empty, and the calls issued —
everything except the human-readable diagnostic text. -/
def branch {σ : Type} (r : OpResponse σ) :
    StateAction σ × Bool × List RemoteCall :=
  (r.state, r.diags.isEmpty, r.calls)

/-! ## Theorems -/

/-- Claim C1, counterexample: the claim that the provider's registration
functions return a constructor for every one of the six kinds is false — the
DNS record resource constructor is not in the registered resource list. -/
theorem c1_counterexample :
    ResourceKind.dnsRecord ∉ DeploymentProvider.Resources := by decide

/-- Claim C1, amended: the provider's registration functions register only
the nameserver set resource and the deployment metadata data source; the
constructors for the DNS record, AWS certificate, monitoring write token and
output bundle kinds exist in the package but are not registered. -/
theorem c1_registration :
    DeploymentProvider.Resources = [ResourceKind.nameservers]
      ∧ DeploymentProvider.DataSources = [DataSourceKind.deployment]
      ∧ NewDNSRecordResource ∉ DeploymentProvider.Resources
      ∧ NewAWSACMCertificateResource ∉ DeploymentProvider.Resources
      ∧ NewMonitoringWriteTokenResource ∉ DeploymentProvider.Resources
      ∧ NewTerraformOutputResource ∉ DeploymentProvider.Resources := by
  decide

/-- Claim C4: for every kind with local no-op delete semantics (nameserver
set, monitoring write token, output bundle) and every prior state, Delete
succeeds with no diagnostics, leaves the state untouched, and issues zero
remote adapter calls. -/
theorem c4_local_noop_delete :
    (∀ st, NameserversResource.delete st = ⟨[], .keep, []⟩)
      ∧ (∀ st, MonitoringWriteTokenResource.delete st = ⟨[], .keep, []⟩)
      ∧ (∀ st, TerraformOutputResource.delete st = ⟨[], .keep, []⟩) :=
  ⟨fun _ => rfl, fun _ => rfl, fun _ => rfl⟩

/-- Claim C5: for the kinds without a true update (nameserver set, output
bundle), Update is extensionally the very same function as Create — on every
plan and every adapter response it issues the same remote call with the same
payload and produces the same diagnostics and resulting state. -/
theorem c5_update_equals_create :
    NameserversResource.update = NameserversResource.create
      ∧ TerraformOutputResource.update = TerraformOutputResource.create :=
  ⟨rfl, rfl⟩

/-- Claim C6, counterexample: a monitoring write token Update in which the
immutable token value differs between prior state and plan does not fail
with any error — it returns success with no diagnostics (and no calls). -/
theorem c6_counterexample :
    MonitoringWriteTokenResource.update
        (.ok ⟨"tok-1", "old-secret"⟩) (.ok ⟨"tok-1", "new-secret"⟩)
      = ⟨[], .keep, []⟩ := rfl

/-- Claim C6, amended: the monitoring write token Update is an unconditional
no-op — for every prior state and every plan, changed immutable fields
included, it returns success with no diagnostics, keeps the persisted state,
and issues zero remote adapter calls; immutability is enforced by the schema
plan modifiers rather than by a PreconditionFailed error. -/
theorem c6_token_update_noop :
    ∀ st plan, MonitoringWriteTokenResource.update st plan = ⟨[], .keep, []⟩ :=
  fun _ _ => rfl

/-- Claim C10: the deployment metadata data source Read treats every adapter
failure, a NotFound code included, as an error — it appends a diagnostic and
never sets or removes state on failure. -/
theorem c10_datasource_read_all_errors_fatal :
    ∀ (cfg : DeploymentDataSourceModel) (e : ConnectError),
      (DeploymentDataSource.read (.ok cfg) (.error e)).diags.isEmpty = false
        ∧ (DeploymentDataSource.read (.ok cfg) (.error e)).state = .keep := by
  intro cfg e
  exact ⟨rfl, rfl⟩

/-- Claim C2, counterexample: the monitoring write token carries an
identifier, yet its Read neither performs the adapter get call nor ever
returns the absent sentinel — on any prior state it issues zero remote calls
and keeps the persisted state, so a NotFound classification of a get can
never produce the absent result for this kind. -/
theorem c2_counterexample :
    (MonitoringWriteTokenResource.read (.ok ⟨"tok-1", "secret"⟩)).calls = []
      ∧ (MonitoringWriteTokenResource.read (.ok ⟨"tok-1", "secret"⟩)).state
          = StateAction.keep := by decide

/-- Claim C2, amended: for the DNS record and AWS certificate kinds, Read on
a NotFound classification of the get call removes the persisted state with no
error diagnostic, and on a successful get stores the freshly observed record;
the monitoring write token's Read makes no remote call at all and always
keeps the prior state unchanged. -/
theorem c2_read_drift :
    (∀ (d : DNSRecordResourceModel) (e : ConnectError),
        e.code = Code.notFound →
          DNSRecordResource.read (.ok d) (.error e)
            = ⟨[], .remove, [.getDNSRecord d.id]⟩)
      ∧ (∀ (d : DNSRecordResourceModel) (rec : DNSRecord),
          DNSRecordResource.read (.ok d) (.ok rec)
            = ⟨[], .set { d with id := rec.id, values := rec.values },
               [.getDNSRecord d.id]⟩)
      ∧ (∀ (c : AWSACMCertificateResourceModel) (e : ConnectError),
          e.code = Code.notFound →
            AWSACMCertificateResource.read (.ok c) (.error e)
              = ⟨[], .remove, [.getAWSACMCertificate c.id]⟩)
      ∧ (∀ (c : AWSACMCertificateResourceModel) (cert : AWSACMCertificate),
          AWSACMCertificateResource.read (.ok c) (.ok cert)
            = ⟨[], .set ⟨cert.id, cert.arn, cert.domainName,
                cert.validationCnameName, cert.validationCnameValue,
                cert.status⟩, [.getAWSACMCertificate c.id]⟩)
      ∧ (∀ m : MonitoringWriteTokenResourceModel,
          MonitoringWriteTokenResource.read (.ok m) = ⟨[], .keep, []⟩) := by
  refine ⟨fun d e he => ?_, fun d rec => ?_, fun c e he => ?_,
    fun c cert => ?_, fun m => rfl⟩ <;>
    simp [DNSRecordResource.read, AWSACMCertificateResource.read, codeOfE, *]

/-- Claim C2, witness: instantiating the amended drift behavior for a
concrete DNS record state and a concrete NotFound error. -/
theorem c2_read_drift_witness :
    DNSRecordResource.read (.ok ⟨"dns-1", "www", "CNAME", "example.com",
        ["target.example.com"]⟩)
        (.error ⟨Code.notFound, "record does not exist"⟩)
      = ⟨[], .remove, [.getDNSRecord "dns-1"]⟩ :=
  c2_read_drift.1 ⟨"dns-1", "www", "CNAME", "example.com",
    ["target.example.com"]⟩ ⟨Code.notFound, "record does not exist"⟩ rfl

/-- Claim C3, counterexample: the DNS record Delete does not treat NotFound
as success — on a concrete prior state and a NotFound-classified delete
failure it appends an error diagnostic. -/
theorem c3_counterexample :
    (DNSRecordResource.delete
        (.ok ⟨"dns-1", "www", "TXT", "example.com", ["v=spf1"]⟩)
        (.error ⟨Code.notFound, "record not found"⟩)).diags.isEmpty
      = false := by decide

/-- Claim C3, amended: the AWS certificate Delete treats a NotFound
classification as success (no diagnostic) and every other failure as a fatal
error, while the DNS record Delete treats every adapter failure, NotFound
included, as a fatal error. -/
theorem c3_delete_notfound :
    (∀ (c : AWSACMCertificateResourceModel) (e : ConnectError),
        e.code = Code.notFound →
          AWSACMCertificateResource.delete (.ok c) (.error e)
            = ⟨[], .keep, [.deregisterAWSACMCertificate c.id]⟩)
      ∧ (∀ (c : AWSACMCertificateResourceModel) (e : ConnectError),
          e.code ≠ Code.notFound →
            (AWSACMCertificateResource.delete (.ok c) (.error e)).diags.isEmpty
              = false)
      ∧ (∀ (d : DNSRecordResourceModel) (e : ConnectError),
          (DNSRecordResource.delete (.ok d) (.error e)).diags.isEmpty
            = false) := by
  refine ⟨fun c e he => ?_, fun c e he => ?_, fun d e => rfl⟩ <;>
    simp [AWSACMCertificateResource.delete, codeOfE, *]

/-- Claim C3, witness: instantiating the amended delete behavior for a
concrete certificate state and a concrete NotFound error. -/
theorem c3_delete_notfound_witness :
    AWSACMCertificateResource.delete
        (.ok ⟨"cert-1", "arn:a", "www.example.com", "n", "v", "ISSUED"⟩)
        (.error ⟨Code.notFound, "certificate not found"⟩)
      = ⟨[], .keep, [.deregisterAWSACMCertificate "cert-1"]⟩ :=
  c3_delete_notfound.1 ⟨"cert-1", "arn:a", "www.example.com", "n", "v",
    "ISSUED"⟩ ⟨Code.notFound, "certificate not found"⟩ rfl

/-- Claim C7, code bug: the AWS certificate Delete evaluated at a prior state
that fails to decode (an input-read error) still issues the remote
deregister call — with the zero-value identifier — contradicting the policy
that caller contract violations are rejected before any remote call. -/
theorem c7_acm_delete_calls_despite_input_error :
    (AWSACMCertificateResource.delete
        (.error ⟨"Client Error", "unable to decode prior state"⟩)
        (.ok ())).calls
      = [RemoteCall.deregisterAWSACMCertificate ""]
      ∧ (AWSACMCertificateResource.delete
          (.error ⟨"Client Error", "unable to decode prior state"⟩)
          (.ok ())).diags.isEmpty = false := by decide

/-- Claim C9: for every Create and Update that performs a remote call, a
remote adapter failure yields an error diagnostic and leaves the persisted
state untouched (no state write). -/
theorem c9_no_state_write_on_remote_failure :
    ∀ e : ConnectError,
      (∀ d : DNSRecordResourceModel,
          (DNSRecordResource.create (.ok d) (.error e)).diags.isEmpty = false
            ∧ (DNSRecordResource.create (.ok d) (.error e)).state = .keep)
        ∧ (∀ d : DNSRecordResourceModel,
            (DNSRecordResource.update (.ok d) (.error e)).diags.isEmpty = false
              ∧ (DNSRecordResource.update (.ok d) (.error e)).state = .keep)
        ∧ (∀ c : AWSACMCertificateResourceModel,
            (AWSACMCertificateResource.create (.ok c) (.error e)).diags.isEmpty
                = false
              ∧ (AWSACMCertificateResource.create (.ok c) (.error e)).state
                  = .keep)
        ∧ (∀ c : AWSACMCertificateResourceModel,
            (AWSACMCertificateResource.update (.ok c) (.error e)).diags.isEmpty
                = false
              ∧ (AWSACMCertificateResource.update (.ok c) (.error e)).state
                  = .keep)
        ∧ (∀ n : NameserversResourceModel,
            (NameserversResource.create (.ok n) (.error e)).diags.isEmpty
                = false
              ∧ (NameserversResource.create (.ok n) (.error e)).state = .keep)
        ∧ (∀ n : NameserversResourceModel,
            (NameserversResource.update (.ok n) (.error e)).diags.isEmpty
                = false
              ∧ (NameserversResource.update (.ok n) (.error e)).state = .keep)
        ∧ (∀ t : TerraformOutputResourceModel,
            (TerraformOutputResource.create (.ok t) (.error e)).diags.isEmpty
                = false
              ∧ (TerraformOutputResource.create (.ok t) (.error e)).state
                  = .keep)
        ∧ (∀ t : TerraformOutputResourceModel,
            (TerraformOutputResource.update (.ok t) (.error e)).diags.isEmpty
                = false
              ∧ (TerraformOutputResource.update (.ok t) (.error e)).state
                  = .keep)
        ∧ (∀ m : MonitoringWriteTokenResourceModel,
            (MonitoringWriteTokenResource.create (.ok m) (.error e)).diags.isEmpty
                = false
              ∧ (MonitoringWriteTokenResource.create (.ok m) (.error e)).state
                  = .keep) := by
  intro e
  refine ⟨fun d => ?_, fun d => ⟨rfl, rfl⟩, fun c => ⟨rfl, rfl⟩,
    fun c => ⟨rfl, rfl⟩, fun n => ⟨rfl, rfl⟩, fun n => ⟨rfl, rfl⟩,
    fun t => ⟨rfl, rfl⟩, fun t => ⟨rfl, rfl⟩, fun m => ⟨rfl, rfl⟩⟩
  cases h : parseDNSRecordType d.type <;>
    simp [DNSRecordResource.create, h]

/-- Claim C8: error classification is a function of the structured code
alone — for any two adapter errors with the same code, every operation takes
the same branch (state action, presence of an error diagnostic, and remote
calls issued are identical), whatever the human-readable messages are. -/
theorem c8_classification_code_only (e1 e2 : ConnectError)
    (h : e1.code = e2.code) :
    (∀ st, branch (DNSRecordResource.create st (.error e1))
        = branch (DNSRecordResource.create st (.error e2)))
      ∧ (∀ st, branch (DNSRecordResource.read st (.error e1))
          = branch (DNSRecordResource.read st (.error e2)))
      ∧ (∀ st, branch (DNSRecordResource.update st (.error e1))
          = branch (DNSRecordResource.update st (.error e2)))
      ∧ (∀ st, branch (DNSRecordResource.delete st (.error e1))
          = branch (DNSRecordResource.delete st (.error e2)))
      ∧ (∀ st, branch (AWSACMCertificateResource.create st (.error e1))
          = branch (AWSACMCertificateResource.create st (.error e2)))
      ∧ (∀ st, branch (AWSACMCertificateResource.read st (.error e1))
          = branch (AWSACMCertificateResource.read st (.error e2)))
      ∧ (∀ st, branch (AWSACMCertificateResource.update st (.error e1))
          = branch (AWSACMCertificateResource.update st (.error e2)))
      ∧ (∀ st, branch (AWSACMCertificateResource.delete st (.error e1))
          = branch (AWSACMCertificateResource.delete st (.error e2)))
      ∧ (∀ st, branch (NameserversResource.create st (.error e1))
          = branch (NameserversResource.create st (.error e2)))
      ∧ (∀ st, branch (NameserversResource.read st (.error e1))
          = branch (NameserversResource.read st (.error e2)))
      ∧ (∀ st, branch (NameserversResource.update st (.error e1))
          = branch (NameserversResource.update st (.error e2)))
      ∧ (∀ st, branch (TerraformOutputResource.create st (.error e1))
          = branch (TerraformOutputResource.create st (.error e2)))
      ∧ (∀ st, branch (TerraformOutputResource.read st (.error e1))
          = branch (TerraformOutputResource.read st (.error e2)))
      ∧ (∀ st, branch (TerraformOutputResource.update st (.error e1))
          = branch (TerraformOutputResource.update st (.error e2)))
      ∧ (∀ st, branch (MonitoringWriteTokenResource.create st (.error e1))
          = branch (MonitoringWriteTokenResource.create st (.error e2)))
      ∧ (∀ st, branch (DeploymentDataSource.read st (.error e1))
          = branch (DeploymentDataSource.read st (.error e2))) := by
  have hb : (e1.code == Code.notFound) = (e2.code == Code.notFound) := by
    rw [h]
  refine ⟨?_, ?_, ?_, ?_, ?_, ?_, ?_, ?_, ?_, ?_, ?_, ?_, ?_, ?_, ?_, ?_⟩
  · intro st
    cases st with
    | error d => rfl
    | ok d =>
      cases hp : parseDNSRecordType d.type <;>
        simp [DNSRecordResource.create, hp, branch]
  · intro st
    cases st with
    | error d => rfl
    | ok d =>
      simp only [DNSRecordResource.read, codeOfE, hb]
      cases hnf : e2.code == Code.notFound <;> simp [hnf, branch]
  · intro st
    cases st with
    | error d => rfl
    | ok d => simp [DNSRecordResource.update, branch]
  · intro st
    cases st with
    | error d => rfl
    | ok d => simp [DNSRecordResource.delete, branch]
  · intro st
    cases st with
    | error d => rfl
    | ok d => simp [AWSACMCertificateResource.create, branch]
  · intro st
    cases st with
    | error d => rfl
    | ok d =>
      simp only [AWSACMCertificateResource.read, codeOfE, hb]
      cases hnf : e2.code == Code.notFound <;> simp [hnf, branch]
  · intro st
    cases st with
    | error d => rfl
    | ok d => simp [AWSACMCertificateResource.update, branch]
  · intro st
    cases st <;>
      simp only [AWSACMCertificateResource.delete, codeOfE, hb] <;>
      cases hnf : e2.code == Code.notFound <;> simp [hnf, branch]
  · intro st
    cases st with
    | error d => rfl
    | ok d => simp [NameserversResource.create, branch]
  · intro st
    cases st with
    | error d => rfl
    | ok d =>
      simp only [NameserversResource.read, codeOfE, hb]
      cases hnf : e2.code == Code.notFound <;> simp [hnf, branch]
  · intro st
    cases st with
    | error d => rfl
    | ok d => simp [NameserversResource.update, branch]
  · intro st
    cases st with
    | error d => rfl
    | ok d => simp [TerraformOutputResource.create, branch]
  · intro st
    cases st with
    | error d => rfl
    | ok d =>
      simp only [TerraformOutputResource.read, codeOfE, hb]
      cases hnf : e2.code == Code.notFound <;> simp [hnf, branch]
  · intro st
    cases st with
    | error d => rfl
    | ok d => simp [TerraformOutputResource.update, branch]
  · intro st
    cases st with
    | error d => rfl
    | ok d => simp [MonitoringWriteTokenResource.create, branch]
  · intro st
    cases st with
    | error d => rfl
    | ok d => simp [DeploymentDataSource.read, branch]

/-- Claim C8, witness: two concrete NotFound errors with different messages
drive the DNS record Read through the same branch. -/
theorem c8_classification_code_only_witness :
    branch (DNSRecordResource.read
        (.ok ⟨"dns-1", "www", "TXT", "example.com", ["v=spf1"]⟩)
        (.error ⟨Code.notFound, "message A"⟩))
      = branch (DNSRecordResource.read
          (.ok ⟨"dns-1", "www", "TXT", "example.com", ["v=spf1"]⟩)
          (.error ⟨Code.notFound, "message B"⟩)) :=
  (c8_classification_code_only ⟨Code.notFound, "message A"⟩
      ⟨Code.notFound, "message B"⟩ rfl).2.1
    (.ok ⟨"dns-1", "www", "TXT", "example.com", ["v=spf1"]⟩)

end Deploymeta
